import Mathlib

/-
Verification of the CodeBanter VS Code extension core
(source: src/unnamed/part_000, a single TypeScript file).

The extension mediates between a browser UI (over a WebSocket), the VS Code
workspace API, and a language-model API.  We shallowly embed the message
handlers of that file as pure Lean functions over an explicit state:

  * the on-disk file system and the set of existing directories
    (vscode.workspace.fs.stat / readFile / writeFile / createDirectory),
  * the open text documents (vscode.workspace.textDocuments),
  * the `originalFileContents` map (the diff baseline store, line 14),
  * the `devServer` singleton handle (line 15),
  * the workspace folders and the active editor.

Each handler returns the successor state together with the ordered list of
messages it sends over the WebSocket (`ws.send`).  Editor notifications
(`vscode.window.showInformationMessage`) and console logging are not
WebSocket traffic and are not modelled.  External collaborators (Node's
`path` module, the Anthropic API) are modelled by the interface the core
uses: `path` as POSIX path arithmetic, the model call as an
`Except String String` parameter (error or response text).
-/

/-- JS `Map<string,string>` lookup (`Map.get`): first entry with the key. -/
def mapGet : List (String × String) → String → Option String
  | [], _ => none
  | (k, v) :: rest, k0 => if k = k0 then some v else mapGet rest k0

/-- JS `Map.set`: replace the value in place if the key is present,
otherwise append the new entry (insertion order preserved). -/
def mapSet : List (String × String) → String → String → List (String × String)
  | [], k, v => [(k, v)]
  | (k1, v1) :: rest, k, v =>
    if k1 = k then (k1, v) :: rest else (k1, v1) :: mapSet rest k v

/-- An open text document (`vscode.workspace.textDocuments` entry):
its file-system path, its current text, and its language id. -/
structure OpenDoc where
  path : String
  text : String
  lang : String
deriving DecidableEq, Repr

/-- Process-wide state of the extension host as the handlers see it. -/
structure St where
  /-- On-disk files: path to byte content (as text). -/
  fs : List (String × String)
  /-- Existing directories (paths for which `fs.stat` succeeds without
  a file being present). -/
  dirs : List String
  /-- Open text documents. -/
  openDocs : List OpenDoc
  /-- The `originalFileContents` map (line 14): the diff-baseline snapshot store. -/
  snapshots : List (String × String)
  /-- Whether the module-level `devServer` handle (line 15) is non-null.
  The source assigns it `null` at lines 15, 874 and 911 and never assigns
  anything else, so no reachable state has it `true`. -/
  devServer : Bool
  /-- Workspace folder paths (`vscode.workspace.workspaceFolders`). -/
  roots : List String
  /-- Path of the active editor's document, if any. -/
  active : Option String
deriving DecidableEq, Repr

/-- Find an open document by path
(`vscode.workspace.textDocuments.find(doc => doc.uri.fsPath === filePath)`). -/
def findDoc : List OpenDoc → String → Option OpenDoc
  | [], _ => none
  | d :: rest, p => if d.path = p then some d else findDoc rest p

/-- Lookup an open document in the state. -/
def lookupDoc (st : St) (p : String) : Option OpenDoc :=
  findDoc st.openDocs p

/-- Replace the text of the open document at a path (the
`WorkspaceEdit.replace` over the whole document range, lines 705-712). -/
def docSetText : List OpenDoc → String → String → List OpenDoc
  | [], _, _ => []
  | d :: rest, p, t =>
    if d.path = p then { d with text := t } :: rest else d :: docSetText rest p t

/-- Whether `vscode.workspace.fs.stat(uri)` succeeds: a file or a directory
exists at the path. -/
def statOk (st : St) (p : String) : Bool :=
  (mapGet st.fs p).isSome || st.dirs.contains p

/-- Current content of a path as the handlers read it: the open document
text if the file is open, otherwise the on-disk content
(lines 397-403, 642-648). -/
def readContent (st : St) (p : String) : Option String :=
  match lookupDoc st p with
  | some d => some d.text
  | none => mapGet st.fs p

/- ### POSIX path arithmetic (Node's `path` module, as used by the core) -/

/-- Split a character list on `/`, keeping empty segments
(like JS `"a//b".split('/') = ["a","","b"]`). -/
def splitSlash : List Char → List (List Char)
  | [] => [[]]
  | c :: s =>
    let r := splitSlash s
    if c = '/' then [] :: r
    else
      match r with
      | h :: t => (c :: h) :: t
      | [] => [[c]]

/-- Normalization step of `path.join`: drop empty and `.` segments,
resolve `..` (popping above the root of an absolute path vanishes). -/
def normSegs (acc : List (List Char)) (isAbs : Bool) :
    List (List Char) → List (List Char)
  | [] => acc.reverse
  | seg :: rest =>
    if seg = [] ∨ seg = ['.'] then normSegs acc isAbs rest
    else if seg = ['.', '.'] then
      match acc with
      | h :: t =>
        if h = ['.', '.'] then normSegs (seg :: acc) isAbs rest
        else normSegs t isAbs rest
      | [] =>
        if isAbs then normSegs [] isAbs rest else normSegs [seg] isAbs rest
    else normSegs (seg :: acc) isAbs rest

/-- POSIX `path.normalize` restricted to the cases the core exercises. -/
def pathNormalize (s : String) : String :=
  let cs := s.data
  let isAbs : Bool := match cs with | '/' :: _ => true | _ => false
  let segs := normSegs [] isAbs (splitSlash cs)
  let body := List.intercalate ['/'] segs
  let r := if isAbs then '/' :: body else body
  if r = [] then "." else ⟨r⟩

/-- POSIX `path.join` of two segments (both call sites pass non-empty
stems; empty arguments are skipped as Node does). -/
def pathJoin (a b : String) : String :=
  if a = "" then pathNormalize b
  else if b = "" then pathNormalize a
  else pathNormalize ⟨a.data ++ '/' :: b.data⟩

/-- POSIX `path.isAbsolute`. -/
def pathIsAbsolute (s : String) : Bool :=
  match s.data with
  | '/' :: _ => true
  | _ => false

/-- POSIX `path.basename`: the final path segment (trailing separators
ignored).  The core never passes `""` or a pure-separator path. -/
def pathBasename (s : String) : String :=
  let rev := s.data.reverse.dropWhile (· == '/')
  ⟨(rev.takeWhile (· != '/')).reverse⟩

/-- POSIX `path.dirname`: everything before the final separator; `.` when
there is none, `/` when the final separator is the leading one.  The core
never passes paths with trailing separators. -/
def pathDirname (s : String) : String :=
  let rev := s.data.reverse
  let afterBase := rev.dropWhile (· != '/')
  match afterBase with
  | [] => "."
  | _ :: pre => if pre = [] then "/" else ⟨pre.reverse⟩

/-- POSIX `path.extname`: from the last `.` of the basename, unless that
dot is the basename's first character. -/
def pathExtname (s : String) : String :=
  let b := (pathBasename s).data
  let revAfter := b.reverse.takeWhile (· != '.')
  if revAfter.length = b.length then ""
  else if revAfter.length + 1 = b.length then ""
  else ⟨'.' :: revAfter.reverse⟩

/-- ASCII lower-casing of a string (`String.prototype.toLowerCase` on the
extension strings the core compares, which are ASCII). -/
def toLowerStr (s : String) : String := ⟨s.data.map Char.toLower⟩

/-- JS `String.prototype.substring(1)`: drop the first character. -/
def dropFirst (s : String) : String := ⟨s.data.drop 1⟩

/- ### Messages -/

/-- Outbound WebSocket messages (`ws.send(JSON.stringify({type: ...}))`).
One constructor per `type` tag the source emits; field order follows the
JSON object literals.  For `chat`, `executeMode`/`filesProcessed` are
`Option`s because `testFileCreation` (line 942) omits them and
`handleChatMessage` can pass JS `undefined` for `filesProcessed`. -/
inductive OutMsg where
  | workspaceInfo (folders : List (String × String))
      (openFiles : List (String × String × String × Bool))
      (activeFile : Option (String × String × String × String))
  | fileContent (path name content language : String)
  | fileModified (path : String) (success : Bool)
  | fileCreated (path : String) (success : Bool)
  | preview (path name content previewType : String)
  | diff (path name originalContent currentContent : String)
  | chatMsg (message : String) (executeMode filesProcessed : Option Bool)
  | error (message : String)
  | fileChanged (path name : String)
  | activeEditorChanged (path name : String)
  | devServerStarted (url : String)
deriving DecidableEq, Repr

/-- The JSON `type` discriminator of an outbound message. -/
def msgType : OutMsg → String
  | .workspaceInfo .. => "workspaceInfo"
  | .fileContent .. => "fileContent"
  | .fileModified .. => "fileModified"
  | .fileCreated .. => "fileCreated"
  | .preview .. => "preview"
  | .diff .. => "diff"
  | .chatMsg .. => "chat"
  | .error .. => "error"
  | .fileChanged .. => "fileChanged"
  | .activeEditorChanged .. => "activeEditorChanged"
  | .devServerStarted .. => "devServerStarted"

/-- Well-formed inbound messages, one constructor per `case` of the
`switch (data.type)` dispatch (lines 100-139); `unknown` is any other
`type` value (the `default` branch). -/
inductive InMsg where
  | chat (message : String) (executeMode : Bool)
  | getFiles
  | getFileContent (filePath : String)
  | modifyFile (filePath content description : String)
  | createFile (filePath content : String)
  | renderPreview (filePath : String)
  | getDiff (filePath : String)
  | testFileCreation
  | unknown (typeName : String)
deriving DecidableEq, Repr

/-- Whether an inbound message is a chat request. -/
def isChatIn : InMsg → Bool
  | .chat _ _ => true
  | _ => false

/-- File-operation acknowledgements: the message kinds the AI-response
parser's dispatched operations emit before the final chat response
(`fileCreated`/`fileModified` successes and `error` failure reports). -/
def isFileOpAck : OutMsg → Bool
  | .fileCreated .. => true
  | .fileModified .. => true
  | .error _ => true
  | _ => false

/-- A dispatched file operation: `createFile` or `modifyFile` invoked with
a resolved absolute path and the block content.  Recorded at the two call
sites of `processAiResponseForFileOperations` (lines 1021 and 1025). -/
inductive FOKind where
  | create
  | modify
deriving DecidableEq, Repr

/-- One dispatched operation of the AI-response parser. -/
structure FileOp where
  kind : FOKind
  path : String
  content : String
deriving DecidableEq, Repr

/- ### escapeHtml (lines 617-624) -/

/-- The first three `.replace` steps of `escapeHtml`: rewrite every `&`,
`<`, `>` in order to its entity. -/
def escapeHtmlPre (text : String) : String :=
  let step (cs : List Char) (c : Char) (rep : List Char) : List Char :=
    cs.flatMap (fun d => if d = c then rep else [d])
  ⟨step (step (step text.data '&' "&amp;".data) '<' "&lt;".data) '>' "&gt;".data⟩

/-- Embeds `escapeHtml` (lines 617-624).  The fourth step is written
`.replace(/"//g, '&quot;')` in the source: the regex literal ends at the
second `/`, so the first argument is the division `/"/ / g` of a regex by
the name `g`, which is not in scope — TypeScript rejects the name, and at
run time evaluating the argument throws a ReferenceError before any
replacement happens.  The function therefore never returns a string; we
model it as `Except`, with the three completed steps recorded and the
thrown error as the result. -/
def escapeHtml (text : String) : Except String String :=
  let _completedSteps := escapeHtmlPre text
  Except.error "ReferenceError: g is not defined"

/- ### Preview templates (renderPreview, lines 416-430 and 454-473) -/

/-- Fixed dev-server port (line 16, never reassigned). -/
def devServerPort : Nat := 3001

/-- The React-component preview shell (template literal, lines 416-430),
with the file's base name interpolated into the title and
`devServerPort` into the iframe URL. -/
def reactPreviewHtml (name : String) : String :=
  "\n                <!DOCTYPE html>\n                <html>\n                <head>\n                    <title>React Component Preview - "
  ++ name ++
  "</title>\n                    <style>\n                        body \x7b margin: 0; padding: 0; height: 100vh; overflow: hidden; \x7d\n                        iframe \x7b width: 100%; height: 100%; border: none; \x7d\n                    </style>\n                </head>\n                <body>\n                    <iframe src=\"http://localhost:"
  ++ toString devServerPort ++
  "\" id=\"devServerFrame\"></iframe>\n                </body>\n                </html>\n            "

/-- Text of the CSS-preview template (lines 454-473) before the title
interpolation. -/
def cssPreviewPre : String :=
  "\n                <!DOCTYPE html>\n                <html>\n                <head>\n                    <title>Preview - "

/-- Text of the CSS-preview template between the title and the `<style>`
body interpolation. -/
def cssPreviewMid : String :=
  "</title>\n                    <style>\n                        "

/-- Text of the CSS-preview template after the `<style>` body. -/
def cssPreviewPost : String :=
  "\n                    </style>\n                </head>\n                <body>\n                    <div class=\"preview-container\">\n                        <h1>CSS Preview</h1>\n                        <p>This is a preview of how the CSS might look applied to basic HTML elements.</p>\n                        <button>Button Example</button>\n                        <a href=\"#\">Link Example</a>\n                        <div class=\"box\">Styled Box</div>\n                    </div>\n                </body>\n                </html>\n            "

/-- The CSS demo page (lines 454-473): the file's base name and the raw
stylesheet content are interpolated directly — neither passes through
`escapeHtml`. -/
def cssPreviewHtml (name content : String) : String :=
  cssPreviewPre ++ name ++ cssPreviewMid ++ content ++ cssPreviewPost

/-- Substring test (used only to state properties of generated HTML). -/
def strContains (hay needle : String) : Bool :=
  let rec go : List Char → Bool
    | [] => needle.data.isPrefixOf []
    | c :: rest => needle.data.isPrefixOf (c :: rest) || go rest
  go hay.data

/- ### File-content and diff handlers -/

/-- Embeds `getFileContent` (lines 332-384).  Both branches store the
content just read into `originalFileContents` unconditionally
(lines 349 and 367) — there is no presence check. -/
def getFileContent (st : St) (filePath : String) : St × List OutMsg :=
  match lookupDoc st filePath with
  | none =>
    match mapGet st.fs filePath with
    | some text =>
      ({ st with snapshots := mapSet st.snapshots filePath text },
       [.fileContent filePath (pathBasename filePath) text
          (dropFirst (pathExtname filePath))])
    | none =>
      (st, [.error ("Error getting file content: Error: Failed to read file: "
              ++ filePath)])
  | some d =>
    ({ st with snapshots := mapSet st.snapshots filePath d.text },
     [.fileContent filePath (pathBasename filePath) d.text d.lang])

/-- Embeds `getFileDiff` (lines 627-668).  The baseline check is
`if (!originalContent)` (line 633): JS falsiness, so a stored empty
string fails exactly like an absent entry. -/
def getFileDiff (st : St) (filePath : String) : St × List OutMsg :=
  match mapGet st.snapshots filePath with
  | none =>
    (st, [.error ("Error generating diff: Error: No original content stored for "
            ++ filePath)])
  | some orig =>
    if orig = "" then
      (st, [.error ("Error generating diff: Error: No original content stored for "
              ++ filePath)])
    else
      match readContent st filePath with
      | none =>
        (st, [.error ("Error generating diff: Error: Failed to read current file: "
                ++ filePath)])
      | some cur =>
        (st, [.diff filePath (pathBasename filePath) orig cur])

/- ### modifyFile (lines 671-738) -/

/-- The baseline capture of `modifyFile` (lines 686-698): only when no
snapshot exists yet, store the open-document text, else the on-disk
content; a failed read is logged and swallowed. -/
def captureSnapshot (st : St) (filePath : String) : St :=
  if (mapGet st.snapshots filePath).isSome then st
  else
    match lookupDoc st filePath with
    | some d => { st with snapshots := mapSet st.snapshots filePath d.text }
    | none =>
      match mapGet st.fs filePath with
      | some t => { st with snapshots := mapSet st.snapshots filePath t }
      | none => st

/-- Embeds `modifyFile` (lines 671-738): stat-check first (throwing?
`NotFound` is reported through the catch at line 731), then baseline
capture, then either a whole-document edit on the open document or a
direct disk write; `applyEdit` is modelled as succeeding. -/
def modifyFile (st : St) (filePath content description : String) :
    St × List OutMsg :=
  if statOk st filePath then
    let st1 := captureSnapshot st filePath
    match lookupDoc st1 filePath with
    | some _ =>
      ({ st1 with openDocs := docSetText st1.openDocs filePath content },
       [.fileModified filePath true])
    | none =>
      ({ st1 with fs := mapSet st1.fs filePath content },
       [.fileModified filePath true])
  else
    (st, [.error ("Error modifying file: Error: File does not exist: "
            ++ filePath)])

/- ### createFile (lines 741-799) -/

/-- The recursive directory-creation loop of `createFile` (lines 764-776):
split the directory path on the separator, skip empty parts, and stat /
create each cumulative prefix.  For an absolute path the leading empty
segment is skipped, so the prefixes are built without the leading `/`,
exactly as the source does. -/
def createDirsLoop (st : St) (currentPath : String) :
    List String → St
  | [] => st
  | part :: rest =>
    if part = "" then createDirsLoop st currentPath rest
    else
      let cur := if currentPath = "" then part else pathJoin currentPath part
      let st1 := if statOk st cur then st
                 else { st with dirs := st.dirs ++ [cur] }
      createDirsLoop st1 cur rest

/-- Embeds `createFile` (lines 741-799).  The existence check at
lines 749-754 is a no-op: `throw new Error('File already exists: ...')`
is raised inside the very `try` whose empty `catch` swallows it, so
execution always proceeds to the directory creation and the write, and
the write overwrites whatever is at the path. -/
def createFile (st : St) (filePath content : String) : St × List OutMsg :=
  let dirPath := pathDirname filePath
  let st1 := if statOk st dirPath then st
             else createDirsLoop st "" ((splitSlash dirPath.data).map (⟨·⟩))
  ({ st1 with fs := mapSet st1.fs filePath content },
   [.fileCreated filePath true])

/- ### renderPreview (lines 387-614) -/

/-- Embeds `renderPreview` (lines 387-614).  Dispatch is by lower-cased
extension after reading the content (open document first, then disk).

* component extensions (`.tsx/.jsx/.ts/.js`): when `devServer` is null the
  source runs `await startDevServer(context)` (line 412), but `context` is
  not in scope inside `renderPreview` (its parameters are `ws` and
  `filePath`, and no module-level `context` exists), so evaluating the
  argument throws a ReferenceError, caught at line 607; when `devServer`
  is non-null the iframe shell is sent;
* `.html`: the content verbatim;
* `.css`: the demo page with the raw content in a `<style>` block;
* `.json`: both the valid and the invalid sub-branch interpolate
  `escapeHtml` into their template (lines 519, 585-586), which always
  throws (see `escapeHtml`), so the outer catch reports that error and
  `JSON.parse`/`JSON.stringify` are never observable;
* anything else: the unsupported-type error (line 602-605). -/
def renderPreview (st : St) (filePath : String) : St × List OutMsg :=
  let ext := toLowerStr (pathExtname filePath)
  match readContent st filePath with
  | none =>
    (st, [.error ("Error rendering preview: Error: Failed to read file: "
            ++ filePath)])
  | some content =>
    if ext = ".tsx" ∨ ext = ".jsx" ∨ ext = ".ts" ∨ ext = ".js" then
      if st.devServer then
        (st, [.preview filePath (pathBasename filePath)
               (reactPreviewHtml (pathBasename filePath)) "html"])
      else
        (st, [.error "Error rendering preview: ReferenceError: context is not defined"])
    else if ext = ".html" then
      (st, [.preview filePath (pathBasename filePath) content "html"])
    else if ext = ".css" then
      (st, [.preview filePath (pathBasename filePath)
             (cssPreviewHtml (pathBasename filePath) content) "html"])
    else if ext = ".json" then
      match escapeHtml content with
      | Except.error e => (st, [.error ("Error rendering preview: " ++ e)])
      | Except.ok escaped =>
        (st, [.preview filePath (pathBasename filePath) escaped "html"])
    else
      (st, [.error ("Preview not supported for file type: " ++ ext)])

/- ### testFileCreation (lines 915-960) -/

/-- Embeds `testFileCreation` (lines 915-960): with no workspace folder it
reports an error; otherwise it writes `test-file.txt` with a fixed text
into the first workspace root — `fs.writeFile` overwrites an existing
file — and replies with a `chat`-type message that carries only a
`message` field. -/
def testFileCreation (st : St) : St × List OutMsg :=
  match st.roots with
  | [] => (st, [.error "No workspace folder is open"])
  | r :: _ =>
    let testFilePath := pathJoin r "test-file.txt"
    let payload := "This is a test file created by CodeBanter."
    ({ st with fs := mapSet st.fs testFilePath payload },
     [.chatMsg ("Test file created successfully at: " ++ testFilePath)
        none none])

/- ### Workspace info and broadcasts -/

/-- Embeds `sendWorkspaceInfo` (lines 166-210): one `workspaceInfo`
message listing the folders (VS Code's folder name is the path's base
name), the open documents with an is-active flag, and the active file
with its content. -/
def sendWorkspaceInfo (st : St) : OutMsg :=
  .workspaceInfo
    (st.roots.map (fun r => (pathBasename r, r)))
    (st.openDocs.map (fun d =>
      (d.path, pathBasename d.path, d.lang, decide (st.active = some d.path))))
    (match st.active with
     | some p =>
       match lookupDoc st p with
       | some d => some (p, pathBasename p, d.text, d.lang)
       | none => none
     | none => none)

/-- Embeds `broadcastFileChange` (lines 213-227): the message sent to
every connected client when the file-system watcher fires.  This is the
only externally-originated broadcast that can occur (the other broadcast
site, `devServerStarted` at lines 886-896, is unreachable: the sole call
of `startDevServer` throws while evaluating its argument, see
`renderPreview`). -/
def broadcastFileChangeMsg (filePath : String) : OutMsg :=
  .fileChanged filePath (pathBasename filePath)

/-- Embeds `broadcastActiveEditorChange` (lines 230-244). -/
def broadcastActiveEditorChangeMsg (filePath : String) : OutMsg :=
  .activeEditorChanged filePath (pathBasename filePath)

/- ### AI-response parser (processAiResponseForFileOperations, lines 962-1045)

The three patterns (lines 971-980) are JS regexes:

  1. three backticks, optional language tag `(?:js|javascript|html|css|tsx|jsx)?`,
     optional whitespace, a comment marker `//` or `<!--`, optional
     whitespace, group 1 `(.*?\.[\w]+)`, separator `[\s\n]+`,
     group 2 `([\s\S]*?)`, three backticks;
  2. three backticks, group 1, separator, group 2, three backticks;
  3. one or more `#`, `\s+`, group 1, separator, group 2 up to the
     lookahead `(?=#+|$)`.

We embed them as backtracking matchers in continuation-passing style over
character lists, mirroring the JS semantics construct by construct: `.`
matches anything but a line terminator, `*?` is lazy (shortest first),
`+` and `?` are greedy with backtracking, alternatives are tried left to
right, and `exec` finds the match at the leftmost possible start
position, resuming after the previous match's end. -/

/-- JS `\s` (also the set trimmed by `String.prototype.trim`):
whitespace and line terminators, by code point. -/
def isRegexWs (c : Char) : Bool :=
  [9, 10, 11, 12, 13, 32, 0xa0, 0x1680,
   0x2000, 0x2001, 0x2002, 0x2003, 0x2004, 0x2005, 0x2006, 0x2007,
   0x2008, 0x2009, 0x200a, 0x2028, 0x2029, 0x202f, 0x205f, 0x3000,
   0xfeff].contains c.toNat

/-- JS `\w`: ASCII letters, digits and underscore. -/
def isWordChar (c : Char) : Bool :=
  (('a' ≤ c ∧ c ≤ 'z') ∨ ('A' ≤ c ∧ c ≤ 'Z') ∨ ('0' ≤ c ∧ c ≤ '9') ∨ c = '_')

/-- JS `.` without the `s` flag: any character except a line terminator. -/
def isDotChar (c : Char) : Bool :=
  ¬ (c.toNat = 10 ∨ c.toNat = 13 ∨ c.toNat = 0x2028 ∨ c.toNat = 0x2029)

/-- JS `String.prototype.trim`. -/
def jsTrim (s : String) : String :=
  ⟨((s.data.dropWhile isRegexWs).reverse.dropWhile isRegexWs).reverse⟩

/-- Match a literal character sequence, then continue. -/
def litM : List Char → List Char → (List Char → Option α) → Option α
  | [], s, k => k s
  | c :: l, s, k =>
    match s with
    | d :: s1 => if c = d then litM l s1 k else none
    | [] => none

/-- Try each literal alternative left to right (regex alternation). -/
def altsM : List (List Char) → List Char → (List Char → Option α) → Option α
  | [], _, _ => none
  | l :: rest, s, k => litM l s k <|> altsM rest s k

/-- Greedy optional alternation (regex `(?:a|b|...)?`): try each
alternative, then the empty match. -/
def optAltsM (ls : List (List Char)) (s : List Char)
    (k : List Char → Option α) : Option α :=
  altsM ls s k <|> k s

/-- Greedy `\s*` with backtracking: longest run first. -/
def starWsM : List Char → (List Char → Option α) → Option α
  | [], k => k []
  | c :: s, k =>
    if isRegexWs c then starWsM s k <|> k (c :: s) else k (c :: s)

/-- Greedy `[\s\n]+` (the same set as `\s+`): at least one whitespace
character, then a greedy run. -/
def plusWsM : List Char → (List Char → Option α) → Option α
  | [], _ => none
  | c :: s, k => if isRegexWs c then starWsM s k else none

/-- Greedy `[\w]+` with backtracking, accumulating the matched
characters for the surrounding capture group. -/
def wordPlusM : List Char → List Char → (List Char → List Char → Option α) →
    Option α
  | [], _, _ => none
  | c :: s, acc, k =>
    if isWordChar c then wordPlusM s (acc ++ [c]) k <|> k (acc ++ [c]) s
    else none

/-- Capture group 1, `(.*?\.[\w]+)`: a lazy dot-run (shortest first),
then a literal `.`, then a greedy word run; the continuation receives
the captured text and the rest. -/
def group1M : List Char → List Char → (List Char → List Char → Option α) →
    Option α
  | [], _, _ => none
  | c :: s, acc, k =>
    (if c = '.' then wordPlusM s (acc ++ ['.']) k else none) <|>
    (if isDotChar c then group1M s (acc ++ [c]) k else none)

/-- Capture group 2 of the fenced patterns, `([\s\S]*?)` followed by the
closing three backticks: lazy any-character run, shortest body whose
continuation sees the closing fence. -/
def group2TicksM : List Char → List Char → (List Char → List Char → Option α) →
    Option α
  | [], acc, k => litM "```".data [] (fun s1 => k acc s1)
  | c :: s1, acc, k =>
    litM "```".data (c :: s1) (fun s2 => k acc s2) <|>
    group2TicksM s1 (acc ++ [c]) k

/-- Capture group 2 of the heading pattern, `([\s\S]*?)(?=#+|$)`: lazy
any-character run up to a zero-width position followed by `#` or the end
of the input. -/
def group2HeadM : List Char → List Char → (List Char → List Char → Option α) →
    Option α
  | [], acc, k => k acc []
  | c :: s, acc, k =>
    (if c = '#' then k acc (c :: s) else none) <|>
    group2HeadM s (acc ++ [c]) k

/-- Greedy `#+` with backtracking. -/
def plusHashM : List Char → (List Char → Option α) → Option α
  | [], _ => none
  | c :: s, k => if c = '#' then (plusHashM s k <|> k s) else none

/-- A pattern matcher at a fixed position: on success it yields
(group 1, group 2, rest of the input after the match). -/
abbrev PatM := List Char → Option (List Char × List Char × List Char)

/-- Pattern 1 (line 973):
three backticks, optional language tag, `\s*`, `//` or `<!--`, `\s*`,
group 1, `[\s\n]+`, group 2, three backticks. -/
def pat1At : PatM := fun s =>
  litM "```".data s fun s1 =>
  optAltsM (["js", "javascript", "html", "css", "tsx", "jsx"].map String.data)
      s1 fun s2 =>
  starWsM s2 fun s3 =>
  altsM (["//", "<!--"].map String.data) s3 fun s4 =>
  starWsM s4 fun s5 =>
  group1M s5 [] fun g1 s6 =>
  plusWsM s6 fun s7 =>
  group2TicksM s7 [] fun g2 s8 =>
  some (g1, g2, s8)

/-- Pattern 2 (line 976): three backticks, group 1, `[\s\n]+`, group 2,
three backticks. -/
def pat2At : PatM := fun s =>
  litM "```".data s fun s1 =>
  group1M s1 [] fun g1 s2 =>
  plusWsM s2 fun s3 =>
  group2TicksM s3 [] fun g2 s4 =>
  some (g1, g2, s4)

/-- Pattern 3 (line 979): `#+`, `\s+`, group 1, `[\s\n]+`, group 2 up to
the next `#` or the end of the input. -/
def pat3At : PatM := fun s =>
  plusHashM s fun s1 =>
  plusWsM s1 fun s2 =>
  group1M s2 [] fun g1 s3 =>
  plusWsM s3 fun s4 =>
  group2HeadM s4 [] fun g2 s5 =>
  some (g1, g2, s5)

/-- The `RegExp.prototype.exec` search: the match at the leftmost position at which
the pattern matches, scanning left to right. -/
def execFrom (patAt : PatM) : List Char → Option (List Char × List Char × List Char)
  | [] => patAt []
  | c :: s => patAt (c :: s) <|> execFrom patAt s

/-- The `while ((match = pattern.exec(message)) !== null)` loop
(line 989): successive matches, each search resuming after the previous
match's end.  Every pattern consumes at least one character per match, so
input-length fuel suffices. -/
def allMatches (patAt : PatM) : Nat → List Char → List (String × String)
  | 0, _ => []
  | fuel + 1, s =>
    match execFrom patAt s with
    | none => []
    | some (g1, g2, rest) => (⟨g1⟩, ⟨g2⟩) :: allMatches patAt fuel rest

/-- The per-match body of the loop (lines 990-1036): trim both captures,
skip the match if either is empty, abort the whole extraction if no
workspace folder is open (the `return;` at line 1006), otherwise resolve
the path against the first workspace root and dispatch `modifyFile` or
`createFile` according to `fs.stat`.  Returns the successor state, the
messages sent, the dispatched operations, whether the extraction was
aborted, and whether an operation was dispatched. -/
def procOneMatch (st : St) (g1 g2 : String) :
    St × List OutMsg × List FileOp × Bool × Bool :=
  let filePath := jsTrim g1
  let content := jsTrim g2
  if filePath = "" ∨ content = "" then (st, [], [], false, false)
  else
    match st.roots with
    | [] => (st, [.error "No workspace folder is open"], [], true, false)
    | r :: _ =>
      let absoluteFilePath :=
        if pathIsAbsolute filePath then filePath else pathJoin r filePath
      if statOk st absoluteFilePath then
        let res := modifyFile st absoluteFilePath content "Updated by AI"
        (res.1, res.2, [⟨.modify, absoluteFilePath, content⟩], false, true)
      else
        let res := createFile st absoluteFilePath content
        (res.1, res.2, [⟨.create, absoluteFilePath, content⟩], false, true)

/-- Process the accumulated matches in order; an aborted extraction
(`return;`) yields `none` for the `operationsPerformed` result (the JS
function returns `undefined` there), otherwise `some` of whether any
operation was dispatched. -/
def procMatches : St → List (String × String) →
    St × List OutMsg × List FileOp × Option Bool
  | st, [] => (st, [], [], some false)
  | st, (g1, g2) :: rest =>
    match procOneMatch st g1 g2 with
    | (st1, msgs, ops, true, _) => (st1, msgs, ops, none)
    | (st1, msgs, ops, false, performed) =>
      let r := procMatches st1 rest
      (r.1, msgs ++ r.2.1, ops ++ r.2.2.1,
       r.2.2.2.map (fun b => performed || b))

/-- Embeds `processAiResponseForFileOperations` (lines 962-1045): run the
three patterns in order over the whole response text, accumulating every
match of each before moving on (the patterns are independent, so one text
span can be extracted more than once), then process the matches in order. -/
def processAiResponseForFileOperations (st : St) (message : String) :
    St × List OutMsg × List FileOp × Option Bool :=
  let cs := message.data
  let ms := allMatches pat1At (cs.length + 1) cs
         ++ allMatches pat2At (cs.length + 1) cs
         ++ allMatches pat3At (cs.length + 1) cs
  procMatches st ms

/- ### Chat handler and message router -/

/-- Embeds `handleChatMessage` (lines 247-329).  The Anthropic call is an
external exchange, modelled by its outcome `up`: an upstream failure is
caught at line 322 and reported as a single error; on success, execute
mode first runs the parser over the response text, then the final chat
response is sent with the parser's `operationsPerformed` result as
`filesProcessed` (the JS `undefined` of an aborted extraction, `none`
here, makes the field vanish from the serialized JSON). -/
def handleChatMessage (st : St) (userMessage : String) (executeMode : Bool)
    (up : Except String String) : St × List OutMsg :=
  match up with
  | .error e => (st, [.error ("Error processing chat message: " ++ e)])
  | .ok responseText =>
    if executeMode then
      let r := processAiResponseForFileOperations st responseText
      (r.1, r.2.1 ++ [.chatMsg responseText (some executeMode) r.2.2.2])
    else
      (st, [.chatMsg responseText (some executeMode) (some false)])

/-- Embeds the `switch (data.type)` dispatch of the per-message handler
(lines 100-139): each well-formed inbound message goes to exactly one
handler; an unrecognized type gets the unknown-type error.  `up` is the
outcome of the Anthropic exchange, consulted only by `chat`. -/
def router (st : St) (m : InMsg) (up : Except String String) :
    St × List OutMsg :=
  match m with
  | .chat message executeMode => handleChatMessage st message executeMode up
  | .getFiles => (st, [sendWorkspaceInfo st])
  | .getFileContent p => getFileContent st p
  | .modifyFile p c d => modifyFile st p c d
  | .createFile p c => createFile st p c
  | .renderPreview p => renderPreview st p
  | .getDiff p => getFileDiff st p
  | .testFileCreation => testFileCreation st
  | .unknown t => (st, [.error ("Unknown message type: " ++ t)])

/- ### Helper lemmas -/

/-- Setting a key in the snapshot map makes it the value `mapGet` sees. -/
theorem mapGet_mapSet_self (m : List (String × String)) (k v : String) :
    mapGet (mapSet m k v) k = some v := by
  induction m with
  | nil => simp [mapGet, mapSet]
  | cons hd tl ih =>
    obtain ⟨k1, v1⟩ := hd
    by_cases h : k1 = k <;> simp [mapGet, mapSet, h, ih]

/-- The handler `getFileContent` sends exactly one message. -/
theorem getFileContent_single (st : St) (p : String) :
    ∃ a, (getFileContent st p).2 = [a] := by
  unfold getFileContent
  split
  · split
    · exact ⟨_, rfl⟩
    · exact ⟨_, rfl⟩
  · exact ⟨_, rfl⟩

/-- The handler `modifyFile` sends exactly one message. -/
theorem modifyFile_single (st : St) (p c d : String) :
    ∃ a, (modifyFile st p c d).2 = [a] := by
  unfold modifyFile
  split
  · dsimp only
    split <;> exact ⟨_, rfl⟩
  · exact ⟨_, rfl⟩

/-- The handler `createFile` sends exactly one message. -/
theorem createFile_single (st : St) (p c : String) :
    ∃ a, (createFile st p c).2 = [a] :=
  ⟨_, rfl⟩

/-- The handler `renderPreview` sends exactly one message. -/
theorem renderPreview_single (st : St) (p : String) :
    ∃ a, (renderPreview st p).2 = [a] := by
  unfold renderPreview
  dsimp only
  split
  · exact ⟨_, rfl⟩
  · split
    · split <;> exact ⟨_, rfl⟩
    · split
      · exact ⟨_, rfl⟩
      · split
        · exact ⟨_, rfl⟩
        · split
          · split <;> exact ⟨_, rfl⟩
          · exact ⟨_, rfl⟩

/-- The handler `getFileDiff` sends exactly one message. -/
theorem getFileDiff_single (st : St) (p : String) :
    ∃ a, (getFileDiff st p).2 = [a] := by
  unfold getFileDiff
  split
  · exact ⟨_, rfl⟩
  · split
    · exact ⟨_, rfl⟩
    · split
      · exact ⟨_, rfl⟩
      · exact ⟨_, rfl⟩

/-- The handler `testFileCreation` sends exactly one message. -/
theorem testFileCreation_single (st : St) :
    ∃ a, (testFileCreation st).2 = [a] := by
  unfold testFileCreation
  split
  · exact ⟨_, rfl⟩
  · exact ⟨_, rfl⟩

/-- Every message `modifyFile` sends is a file-operation acknowledgement. -/
theorem modifyFile_acks (st : St) (p c d : String) :
    ∀ a ∈ (modifyFile st p c d).2, isFileOpAck a = true := by
  unfold modifyFile
  split
  · dsimp only
    split <;> simp [isFileOpAck]
  · simp [isFileOpAck]

/-- Every message `createFile` sends is a file-operation acknowledgement. -/
theorem createFile_acks (st : St) (p c : String) :
    ∀ a ∈ (createFile st p c).2, isFileOpAck a = true := by
  simp [createFile, isFileOpAck]

/-- Every message the parser emits for one match is a file-operation
acknowledgement. -/
theorem procOneMatch_acks (st : St) (g1 g2 : String) :
    ∀ a ∈ (procOneMatch st g1 g2).2.1, isFileOpAck a = true := by
  unfold procOneMatch
  dsimp only
  split
  · simp
  · split
    · simp [isFileOpAck]
    · split
      · split
        · dsimp only
          exact modifyFile_acks st _ _ _
        · dsimp only
          exact createFile_acks st _ _
      · split
        · dsimp only
          exact modifyFile_acks st _ _ _
        · dsimp only
          exact createFile_acks st _ _

/-- Every message the parser emits over a match list is a file-operation
acknowledgement. -/
theorem procMatches_acks (ms : List (String × String)) :
    ∀ (st : St), ∀ a ∈ (procMatches st ms).2.1, isFileOpAck a = true := by
  induction ms with
  | nil => intro st a ha; simp [procMatches] at ha
  | cons hd tl ih =>
    intro st a ha
    obtain ⟨g1, g2⟩ := hd
    unfold procMatches at ha
    rcases h : procOneMatch st g1 g2 with ⟨st1, msgs, ops, ab, perf⟩
    rw [h] at ha
    have hm := procOneMatch_acks st g1 g2
    rw [h] at hm
    cases ab with
    | true => exact hm a ha
    | false =>
      simp only [List.mem_append] at ha
      rcases ha with h1 | h2
      · exact hm a h1
      · exact ih st1 a h2

/- ### Claim C2 -/

/-- State with workspace root `/w` and an existing file `/w/a.txt`. -/
def c2St : St :=
  ⟨[("/w/a.txt", "old")], ["/w"], [], [], false, ["/w"], none⟩

/-- Claim C2 (code evidence): `createFile` on a path where a file already
exists does NOT fail — the AlreadyExists throw at line 751 is swallowed
by its own catch at line 752 — so the existing content is overwritten and
a success acknowledgement is sent.  The claim (fail with AlreadyExists,
no write, no success acknowledgement) describes the evident intent of
lines 748-754; the code contradicts it. -/
theorem c2_createFile_overwrites :
    createFile c2St "/w/a.txt" "new" =
      ({ c2St with fs := [("/w/a.txt", "new")] },
       [.fileCreated "/w/a.txt" true]) := by
  decide

/- ### Claim C4 -/

/-- Claim C4: `modifyFile` on a path where nothing exists fails with the
file-does-not-exist error before any mutation: the state is returned
unchanged (no write, no snapshot capture) and the only message sent is
the error acknowledgement — no success acknowledgement. -/
theorem modifyFile_notFound (st : St) (p c d : String)
    (h : statOk st p = false) :
    modifyFile st p c d =
      (st, [.error ("Error modifying file: Error: File does not exist: "
              ++ p)]) := by
  simp [modifyFile, h]

/-- Empty workspace state for the C4 witness. -/
def c4St : St := ⟨[], [], [], [], false, [], none⟩

/-- Witness for C4 at a concrete state and path. -/
theorem modifyFile_notFound_witness :
    statOk c4St "/w/missing.txt" = false ∧
    modifyFile c4St "/w/missing.txt" "text" "desc" =
      (c4St, [.error ("Error modifying file: Error: File does not exist: "
              ++ "/w/missing.txt")]) :=
  ⟨by decide, modifyFile_notFound c4St "/w/missing.txt" "text" "desc" (by decide)⟩

/- ### Claim C6 -/

/-- Claim C6 (code evidence): `escapeHtml` never returns a string at all.
Its fourth step is written `.replace(/"//g, '&quot;')`: the regex literal
is `/"/` and the trailing `/g` divides it by the unbound name `g`, so the
function throws for every input (and TypeScript rejects the name).  The
claimed property — output free of literal `<`, `>`, unescaped `&` and
unescaped quotes — is the evident intent of the surrounding replace
chain, but no output is ever produced. -/
theorem escapeHtml_never_returns (t : String) :
    escapeHtml t = Except.error "ReferenceError: g is not defined" := rfl

/- ### Claim C9 -/

/-- Claim C9: when the stored baseline snapshot for a path is the empty
string, `getFileDiff` fails with the no-baseline error even though a
snapshot entry exists — the check `if (!originalContent)` (line 633)
treats the empty string as falsy, exactly like an absent entry. -/
theorem getFileDiff_empty_baseline (st : St) (p : String)
    (h : mapGet st.snapshots p = some "") :
    getFileDiff st p =
      (st, [.error ("Error generating diff: Error: No original content stored for "
              ++ p)]) := by
  unfold getFileDiff
  rw [h]
  simp

/-- State with an empty-string baseline stored for `/w/a.txt` (as left by
reading an empty file) while the file itself is present and readable. -/
def c9St : St :=
  ⟨[("/w/a.txt", "x")], ["/w"], [], [("/w/a.txt", "")], false, ["/w"], none⟩

/-- Witness for C9 at a concrete state. -/
theorem getFileDiff_empty_baseline_witness :
    mapGet c9St.snapshots "/w/a.txt" = some "" ∧
    getFileDiff c9St "/w/a.txt" =
      (c9St, [.error ("Error generating diff: Error: No original content stored for "
              ++ "/w/a.txt")]) :=
  ⟨by decide, getFileDiff_empty_baseline c9St "/w/a.txt" (by decide)⟩

/- ### Claim C10 -/

/-- Claim C10: the router accepts the inbound type `testFileCreation`
(line 129) — it is dispatched, not routed to the unknown-type error —
and with a workspace root open it unconditionally writes
`test-file.txt` with the fixed text into the first root (overwriting any
existing file, since `fs.writeFile` overwrites) and replies with a single
message whose `type` is `chat`. -/
theorem testFileCreation_router (st : St) (up : Except String String)
    (r : String) (rs : List String) (h : st.roots = r :: rs) :
    router st .testFileCreation up =
      ({ st with fs := (mapSet st.fs (pathJoin r "test-file.txt")
            "This is a test file created by CodeBanter.") },
       [.chatMsg ("Test file created successfully at: "
            ++ pathJoin r "test-file.txt") none none]) ∧
    mapGet (router st .testFileCreation up).1.fs (pathJoin r "test-file.txt") =
      some "This is a test file created by CodeBanter." ∧
    msgType (.chatMsg ("Test file created successfully at: "
        ++ pathJoin r "test-file.txt") none none) = "chat" := by
  unfold router testFileCreation
  rw [h]
  exact ⟨rfl, mapGet_mapSet_self _ _ _, rfl⟩

/-- State whose first root already contains a `test-file.txt` with other
content, for the C10 witness: the reply overwrites it. -/
def c10St : St :=
  ⟨[("/w/test-file.txt", "older content")], ["/w"], [], [], false, ["/w"], none⟩

/-- Witness for C10 at a concrete state with a pre-existing
`test-file.txt` (exhibiting the overwrite). -/
theorem testFileCreation_router_witness :
    c10St.roots = "/w" :: [] ∧
    (router c10St .testFileCreation (Except.ok "") =
      ({ c10St with fs := (mapSet c10St.fs (pathJoin "/w" "test-file.txt")
            "This is a test file created by CodeBanter.") },
       [.chatMsg ("Test file created successfully at: "
            ++ pathJoin "/w" "test-file.txt") none none]) ∧
    mapGet (router c10St .testFileCreation (Except.ok "")).1.fs
        (pathJoin "/w" "test-file.txt") =
      some "This is a test file created by CodeBanter." ∧
    msgType (.chatMsg ("Test file created successfully at: "
        ++ pathJoin "/w" "test-file.txt") none none) = "chat") :=
  ⟨by decide, testFileCreation_router c10St (Except.ok "") "/w" [] (by decide)⟩

/- ### Claim C3 -/

/-- State with workspace root `/w` and a closed on-disk file `/w/a.txt`
containing `old`, and no snapshot yet. -/
def c3St : St :=
  ⟨[("/w/a.txt", "old")], ["/w"], [], [], false, ["/w"], none⟩

/-- Claim C3 counterexample: read, modify, read again, diff.  The second
`getFileContent` overwrites the baseline (lines 349/367 store
unconditionally), so the final diff's `originalContent` is the modified
content, not the content the first read returned. -/
theorem c3_counterexample :
    let r1 := getFileContent c3St "/w/a.txt"
    let r2 := modifyFile r1.1 "/w/a.txt" "new content" "edit"
    let r3 := getFileContent r2.1 "/w/a.txt"
    let r4 := getFileDiff r3.1 "/w/a.txt"
    r1.2 = [.fileContent "/w/a.txt" "a.txt" "old" "txt"] ∧
    r2.2 = [.fileModified "/w/a.txt" true] ∧
    r4.2 = [.diff "/w/a.txt" "a.txt" "new content" "new content"] ∧
    r4.2 ≠ [.diff "/w/a.txt" "a.txt" "old" "new content"] := by
  decide

/-- Claim C3 amended: `getFileContent` overwrites the baseline on every
call — after any read of a closed on-disk file, the stored snapshot
equals the content just returned, whatever was stored before. -/
theorem getFileContent_resets_baseline (st : St) (p text : String)
    (hdoc : lookupDoc st p = none) (hfs : mapGet st.fs p = some text) :
    mapGet (getFileContent st p).1.snapshots p = some text ∧
    (getFileContent st p).2 =
      [.fileContent p (pathBasename p) text (dropFirst (pathExtname p))] := by
  unfold getFileContent
  rw [hdoc, hfs]
  exact ⟨mapGet_mapSet_self _ _ _, rfl⟩

/-- Witness for the amended C3 at a state that already has a different
baseline stored for the path: the read replaces it. -/
def c3StWithBaseline : St :=
  ⟨[("/w/a.txt", "current")], ["/w"], [], [("/w/a.txt", "much older")],
   false, ["/w"], none⟩

/-- Witness for the amended C3: applying the theorem at `c3StWithBaseline`
shows the pre-existing baseline `much older` replaced by `current`. -/
theorem getFileContent_resets_baseline_witness :
    lookupDoc c3StWithBaseline "/w/a.txt" = none ∧
    mapGet c3StWithBaseline.fs "/w/a.txt" = some "current" ∧
    (mapGet (getFileContent c3StWithBaseline "/w/a.txt").1.snapshots "/w/a.txt" =
        some "current" ∧
     (getFileContent c3StWithBaseline "/w/a.txt").2 =
       [.fileContent "/w/a.txt" (pathBasename "/w/a.txt") "current"
          (dropFirst (pathExtname "/w/a.txt"))]) :=
  ⟨by decide, by decide,
   getFileContent_resets_baseline c3StWithBaseline "/w/a.txt" "current"
     (by decide) (by decide)⟩

/- ### Claim C5 -/

/-- State with a closed on-disk stylesheet whose content is active HTML. -/
def c5St : St :=
  ⟨[("/w/a.css", "<script>alert(1)</script>")], ["/w"], [], [],
   false, ["/w"], none⟩

set_option maxRecDepth 16384 in
/-- Claim C5 counterexample: the CSS preview interpolates the file
content verbatim — the generated artifact contains the raw
`<script>alert(1)</script>` and no `&lt;` anywhere, so the `<` of the
content is not escaped (nor is anything else). -/
theorem c5_counterexample :
    (renderPreview c5St "/w/a.css").2 =
      [.preview "/w/a.css" "a.css"
        (cssPreviewHtml "a.css" "<script>alert(1)</script>") "html"] ∧
    strContains (cssPreviewHtml "a.css" "<script>alert(1)</script>")
      "<script>alert(1)</script>" = true ∧
    strContains (cssPreviewHtml "a.css" "<script>alert(1)</script>")
      "&lt;" = false := by
  refine ⟨by decide, ?_, ?_⟩ <;> decide

/-- Claim C5 amended: the `.css` branch of `renderPreview` performs no
escaping at all — the artifact is exactly the demo template with the
file's base name and the raw content interpolated (`escapeHtml` is
invoked only in the `.json` branch). -/
theorem renderPreview_css_raw (st : St) (p c : String)
    (hdoc : lookupDoc st p = none) (hfs : mapGet st.fs p = some c)
    (hext : toLowerStr (pathExtname p) = ".css") :
    renderPreview st p =
      (st, [.preview p (pathBasename p)
             (cssPreviewHtml (pathBasename p) c) "html"]) := by
  unfold renderPreview readContent
  rw [hdoc, hfs, hext]
  dsimp only
  rw [if_neg (by decide), if_neg (by decide), if_pos rfl]

/-- Witness for the amended C5 at the concrete stylesheet state. -/
theorem renderPreview_css_raw_witness :
    lookupDoc c5St "/w/a.css" = none ∧
    mapGet c5St.fs "/w/a.css" = some "<script>alert(1)</script>" ∧
    toLowerStr (pathExtname "/w/a.css") = ".css" ∧
    renderPreview c5St "/w/a.css" =
      (c5St, [.preview "/w/a.css" (pathBasename "/w/a.css")
               (cssPreviewHtml (pathBasename "/w/a.css")
                 "<script>alert(1)</script>") "html"]) :=
  ⟨by decide, by decide, by decide,
   renderPreview_css_raw c5St "/w/a.css" "<script>alert(1)</script>"
     (by decide) (by decide) (by decide)⟩

/- ### Claim C7 -/

/-- Claim C7 (code evidence): previewing a component-extension file never
starts the dev server and never returns the iframe shell.  With
`devServer` null — which every reachable state has, since nothing ever
assigns it — the source runs `await startDevServer(context)` (line 412),
but `context` is not in scope inside `renderPreview`, so the call throws
while evaluating its argument and the catch at line 607 sends an error
instead.  The state is returned unchanged, so a second identical request
behaves identically: no process is ever running and no idempotent no-op
occurs. -/
theorem renderPreview_component_throws (st : St) (p c : String)
    (hread : readContent st p = some c)
    (hext : toLowerStr (pathExtname p) = ".tsx" ∨
            toLowerStr (pathExtname p) = ".jsx" ∨
            toLowerStr (pathExtname p) = ".ts" ∨
            toLowerStr (pathExtname p) = ".js")
    (hdev : st.devServer = false) :
    renderPreview st p =
      (st, [.error "Error rendering preview: ReferenceError: context is not defined"]) := by
  unfold renderPreview
  rw [hread]
  dsimp only
  rw [if_pos hext, hdev]
  rw [if_neg (by decide)]

/-- State with a closed on-disk component file `/w/App.tsx`. -/
def c7St : St :=
  ⟨[("/w/App.tsx", "export default function App() \x7b return null; \x7d")],
   ["/w"], [], [], false, ["/w"], none⟩

/-- Witness for C7 at the concrete component-file state. -/
theorem renderPreview_component_throws_witness :
    readContent c7St "/w/App.tsx" =
      some "export default function App() \x7b return null; \x7d" ∧
    (toLowerStr (pathExtname "/w/App.tsx") = ".tsx" ∨
     toLowerStr (pathExtname "/w/App.tsx") = ".jsx" ∨
     toLowerStr (pathExtname "/w/App.tsx") = ".ts" ∨
     toLowerStr (pathExtname "/w/App.tsx") = ".js") ∧
    c7St.devServer = false ∧
    renderPreview c7St "/w/App.tsx" =
      (c7St, [.error "Error rendering preview: ReferenceError: context is not defined"]) :=
  ⟨by decide, by decide, by decide,
   renderPreview_component_throws c7St "/w/App.tsx"
     "export default function App() \x7b return null; \x7d"
     (by decide) (by decide) (by decide)⟩

/- ### Claim C1 -/

/-- The parser-scenario input: exactly one fenced `js` block whose first
line names `foo.js` in a `//` comment. -/
def c1Input : String := "```js // foo.js\nconsole.log(1)\n```"

/-- Workspace with a single root `/w` and no files at all (in particular
no `foo.js`). -/
def c1St : St := ⟨[], ["/w"], [], [], false, ["/w"], none⟩

set_option maxRecDepth 16384 in
/-- Claim C1 counterexample: the extraction dispatches TWO `createFile`
operations, not one.  Pattern 1 matches with path token `foo.js`, but
pattern 2 — `three backticks (.*?\.[\w]+) ...` — also matches the same
span with path token `js // foo.js` (its group greedily absorbs the
language tag and comment marker up to the first dot), which resolves to
`/w/js / foo.js`, so a second operation is dispatched for that path. -/
theorem c1_counterexample :
    (processAiResponseForFileOperations c1St c1Input).2.2.1 =
      [⟨.create, "/w/foo.js", "console.log(1)"⟩,
       ⟨.create, "/w/js / foo.js", "console.log(1)"⟩] ∧
    (processAiResponseForFileOperations c1St c1Input).2.2.1.length ≠ 1 := by
  exact ⟨by decide, by decide⟩

set_option maxRecDepth 16384 in
/-- Claim C1 amended: on this input the parser dispatches exactly two
operations, both `createFile` with content `console.log(1)`: the first
for `foo.js` resolved against the first workspace root (as the claim
says), and additionally a second for the pattern-2 path token
`js // foo.js` (resolved and normalized to `/w/js / foo.js`); both files
are written, both success acknowledgements are sent, and the
files-processed flag is true. -/
theorem c1_amended :
    processAiResponseForFileOperations c1St c1Input =
      ({ c1St with
          fs := [("/w/foo.js", "console.log(1)"),
                 ("/w/js / foo.js", "console.log(1)")],
          dirs := ["/w", "w", "w/js "] },
       [.fileCreated "/w/foo.js" true, .fileCreated "/w/js / foo.js" true],
       [⟨.create, "/w/foo.js", "console.log(1)"⟩,
        ⟨.create, "/w/js / foo.js", "console.log(1)"⟩],
       some true) := by
  decide

/- ### Claim C8 -/

/-- Claim C8: for every well-formed inbound message the router sends the
requesting client a message list of the form `acks ++ [fin]` — exactly
one final response (success or error) — where every preceding message is
a file-operation acknowledgement, and for every non-chat message `acks`
is empty, i.e. exactly one outbound message is produced.  Only a chat
request can interleave acknowledgements (from the AI-response parser)
before its final response.  No handler broadcasts: the only
`devServerStarted` broadcast site (lines 886-896) is unreachable because
the sole call of `startDevServer` throws while evaluating its out-of-scope
`context` argument (see `renderPreview`); externally-originated
file-change broadcasts are not router outputs. -/
theorem router_single_response (st : St) (m : InMsg)
    (up : Except String String) :
    ∃ acks fin, (router st m up).2 = acks ++ [fin] ∧
      (∀ a ∈ acks, isFileOpAck a = true) ∧
      (isChatIn m = false → acks = []) := by
  cases m with
  | chat message executeMode =>
    unfold router handleChatMessage
    cases up with
    | error e =>
      exact ⟨[], _, rfl, by simp, fun _ => rfl⟩
    | ok responseText =>
      cases executeMode with
      | false =>
        exact ⟨[], _, rfl, by simp, fun _ => rfl⟩
      | true =>
        refine ⟨(processAiResponseForFileOperations st responseText).2.1, _,
          rfl, ?_, ?_⟩
        · exact procMatches_acks _ st
        · intro h; simp [isChatIn] at h
  | getFiles =>
    exact ⟨[], sendWorkspaceInfo st, rfl, by simp, fun _ => rfl⟩
  | getFileContent p =>
    obtain ⟨a, ha⟩ := getFileContent_single st p
    exact ⟨[], a, ha, by simp, fun _ => rfl⟩
  | modifyFile p c d =>
    obtain ⟨a, ha⟩ := modifyFile_single st p c d
    exact ⟨[], a, ha, by simp, fun _ => rfl⟩
  | createFile p c =>
    obtain ⟨a, ha⟩ := createFile_single st p c
    exact ⟨[], a, ha, by simp, fun _ => rfl⟩
  | renderPreview p =>
    obtain ⟨a, ha⟩ := renderPreview_single st p
    exact ⟨[], a, ha, by simp, fun _ => rfl⟩
  | getDiff p =>
    obtain ⟨a, ha⟩ := getFileDiff_single st p
    exact ⟨[], a, ha, by simp, fun _ => rfl⟩
  | testFileCreation =>
    obtain ⟨a, ha⟩ := testFileCreation_single st
    exact ⟨[], a, ha, by simp, fun _ => rfl⟩
  | unknown t =>
    exact ⟨[], _, rfl, by simp, fun _ => rfl⟩
